import Mathlib

/-!
Shallow embedding of the VVLIVE control-plane core
(backend/app/state_machine.py, backend/app/metrics_aggregator.py,
backend/app/ingest_monitor.py) and proofs about the claims of the
natural-language specification.

Modelling conventions:
* Python floats are modelled as exact rationals (ℚ); Python ints as ℤ/ℕ.
* Wall-clock time is passed explicitly as a `now : ℚ` argument; the Python
  code reads `time.time()` inside each method.
* Python `Optional[...]` fields become `Option`.
* The f-string reason messages are modelled as a structured `Reason` type
  carrying the interpolated numeric value instead of formatted text.
* Python dict counters (`Dict[QualityState, int]` with the
  "not in → insert 0, then += 1" idiom) are modelled as total functions
  `QualityState → ℕ`; `dict.clear()` becomes the constant-zero function.
-/

unseal Rat.add Rat.sub Rat.mul Rat.inv

namespace VVLIVE

/-- models.py: `class QualityState(Enum)` with six values. -/
inductive QualityState where
  | HIGH
  | MEDIUM
  | LOW
  | VERY_LOW
  | RECOVERY
  | ERROR
  deriving DecidableEq, Repr

/-- Structured stand-in for the Python reason strings built in
`evaluate_downgrade` / `evaluate_upgrade`; each constructor corresponds to one
f-string template of state_machine.py and carries the interpolated value. -/
inductive Reason where
  | bothUplinksFailed
  | highPacketLoss (loss : ℚ)
  | highLowBandwidth (bw : ℚ)
  | mediumPacketLoss (loss : ℚ)
  | mediumLowBandwidth (bw : ℚ)
  | lowPacketLoss (loss : ℚ)
  | lowLowBandwidth (bw : ℚ)
  | veryLowCritical (bw : ℚ)
  | recoveryComplete (prev : QualityState)
  | networkStable
  deriving DecidableEq, Repr

/-- state_machine.py `StateMachineTimers.MIN_STATE_DWELL_TIME = 45`. -/
def MIN_STATE_DWELL_TIME : ℚ := 45

/-- state_machine.py `StateMachineTimers.RECOVERY_DWELL_TIME = 60`. -/
def RECOVERY_DWELL_TIME : ℚ := 60

/-- state_machine.py `@dataclass StateContext`. -/
structure StateContext where
  current_state : QualityState
  previous_state : Option QualityState
  entered_at : ℚ
  condition_name : Option String := none
  condition_met_at : Option ℚ := none
  deriving DecidableEq, Repr

/-- `StateContext.time_in_state`: `time.time() - self.entered_at`. -/
def StateContext.time_in_state (ctx : StateContext) (now : ℚ) : ℚ :=
  now - ctx.entered_at

/-- `StateContext.condition_duration`: 0 when no condition is outstanding. -/
def StateContext.condition_duration (ctx : StateContext) (now : ℚ) : ℚ :=
  match ctx.condition_met_at with
  | none => 0
  | some t => now - t

/-- `StateContext.set_condition`: only restarts the timer when the name
changes. -/
def StateContext.set_condition (ctx : StateContext) (now : ℚ) (name : String) :
    StateContext :=
  if ctx.condition_name ≠ some name then
    { ctx with condition_met_at := some now, condition_name := some name }
  else
    ctx

/-- `StateContext.clear_condition`. -/
def StateContext.clear_condition (ctx : StateContext) : StateContext :=
  { ctx with condition_met_at := none, condition_name := none }

/-- `StateContext.transition_to`: `previous_state` is captured when entering
RECOVERY and dropped when leaving RECOVERY; then the state, entry time and
condition are reset. -/
def StateContext.transition_to (ctx : StateContext) (now : ℚ)
    (new_state : QualityState) : StateContext :=
  let ctx1 :=
    if new_state = QualityState.RECOVERY then
      { ctx with previous_state := some ctx.current_state }
    else if ctx.current_state = QualityState.RECOVERY then
      { ctx with previous_state := none }
    else
      ctx
  StateContext.clear_condition
    { ctx1 with current_state := new_state, entered_at := now }

/-- `AdaptiveStateMachine.__init__(initial_state=MEDIUM)`: the initial
context. -/
def initContext (t0 : ℚ) : StateContext :=
  { current_state := QualityState.MEDIUM
    previous_state := none
    entered_at := t0 }

/-- `AdaptiveStateMachine.evaluate_downgrade`: returns the recommendation and
the (possibly condition-mutated) context.  The dwell pre-gate is checked
first, then the zero-subflow rule, then the per-state trigger chains. -/
def evaluate_downgrade (ctx : StateContext) (now total_bandwidth_bps
    packet_loss_percent max_rtt_ms : ℚ) (active_subflows : ℤ) :
    Option (QualityState × Reason) × StateContext :=
  if ctx.time_in_state now < MIN_STATE_DWELL_TIME then
    (none, ctx)
  else if active_subflows = 0 then
    (some (QualityState.ERROR, Reason.bothUplinksFailed), ctx)
  else
    match ctx.current_state with
    | QualityState.HIGH =>
        if packet_loss_percent > 2 then
          if ctx.condition_duration now ≥ 5 then
            (some (QualityState.MEDIUM, Reason.highPacketLoss packet_loss_percent), ctx)
          else
            (none, ctx.set_condition now "high_packet_loss")
        else if total_bandwidth_bps < 5000000 then
          if ctx.condition_duration now ≥ 10 then
            (some (QualityState.MEDIUM, Reason.highLowBandwidth total_bandwidth_bps), ctx)
          else
            (none, ctx.set_condition now "high_low_bandwidth")
        else
          (none, ctx.clear_condition)
    | QualityState.MEDIUM =>
        if packet_loss_percent > 3 then
          if ctx.condition_duration now ≥ 5 then
            (some (QualityState.LOW, Reason.mediumPacketLoss packet_loss_percent), ctx)
          else
            (none, ctx.set_condition now "medium_packet_loss")
        else if total_bandwidth_bps < 3000000 then
          if ctx.condition_duration now ≥ 10 then
            (some (QualityState.LOW, Reason.mediumLowBandwidth total_bandwidth_bps), ctx)
          else
            (none, ctx.set_condition now "medium_low_bandwidth")
        else
          (none, ctx.clear_condition)
    | QualityState.LOW =>
        if packet_loss_percent > 5 then
          if ctx.condition_duration now ≥ 5 then
            (some (QualityState.VERY_LOW, Reason.lowPacketLoss packet_loss_percent), ctx)
          else
            (none, ctx.set_condition now "low_packet_loss")
        else if total_bandwidth_bps < 1500000 then
          if ctx.condition_duration now ≥ 10 then
            (some (QualityState.VERY_LOW, Reason.lowLowBandwidth total_bandwidth_bps), ctx)
          else
            (none, ctx.set_condition now "low_low_bandwidth")
        else
          (none, ctx.clear_condition)
    | QualityState.VERY_LOW =>
        if total_bandwidth_bps < 500000 then
          if ctx.condition_duration now ≥ 20 then
            (some (QualityState.ERROR, Reason.veryLowCritical total_bandwidth_bps), ctx)
          else
            (none, ctx.set_condition now "very_low_critical")
        else
          (none, ctx.clear_condition)
    | QualityState.RECOVERY => (none, ctx)
    | QualityState.ERROR => (none, ctx)

/-- `AdaptiveStateMachine.evaluate_upgrade`: ERROR is terminal, then the dwell
pre-gate, then the RECOVERY time-only rule, then the per-state upgrade
conjunctions.  A HIGH state matches no branch and leaves the context
untouched. -/
def evaluate_upgrade (ctx : StateContext) (now total_bandwidth_bps
    packet_loss_percent min_rtt_ms : ℚ) (active_subflows : ℤ) :
    Option (QualityState × Reason) × StateContext :=
  if ctx.current_state = QualityState.ERROR then
    (none, ctx)
  else if ctx.time_in_state now < MIN_STATE_DWELL_TIME then
    (none, ctx)
  else if ctx.current_state = QualityState.RECOVERY then
    if ctx.time_in_state now ≥ RECOVERY_DWELL_TIME then
      match ctx.previous_state with
      | some QualityState.VERY_LOW =>
          (some (QualityState.LOW, Reason.recoveryComplete QualityState.VERY_LOW), ctx)
      | some QualityState.LOW =>
          (some (QualityState.MEDIUM, Reason.recoveryComplete QualityState.LOW), ctx)
      | some QualityState.MEDIUM =>
          (some (QualityState.HIGH, Reason.recoveryComplete QualityState.MEDIUM), ctx)
      | _ => (none, ctx)
    else
      (none, ctx)
  else
    match ctx.current_state with
    | QualityState.VERY_LOW =>
        if total_bandwidth_bps > 2500000 ∧ packet_loss_percent < 1 ∧ min_rtt_ms < 100 then
          if ctx.condition_duration now ≥ 60 then
            (some (QualityState.RECOVERY, Reason.networkStable), ctx)
          else
            (none, ctx.set_condition now "very_low_upgrade")
        else
          (none, ctx.clear_condition)
    | QualityState.LOW =>
        if total_bandwidth_bps > 4500000 ∧ packet_loss_percent < 1/2 ∧ min_rtt_ms < 80 then
          if ctx.condition_duration now ≥ 60 then
            (some (QualityState.RECOVERY, Reason.networkStable), ctx)
          else
            (none, ctx.set_condition now "low_upgrade")
        else
          (none, ctx.clear_condition)
    | QualityState.MEDIUM =>
        if total_bandwidth_bps > 7000000 ∧ packet_loss_percent < 1/2 ∧ min_rtt_ms < 100 then
          if ctx.condition_duration now ≥ 60 then
            (some (QualityState.RECOVERY, Reason.networkStable), ctx)
          else
            (none, ctx.set_condition now "medium_upgrade")
        else
          (none, ctx.clear_condition)
    | _ => (none, ctx)

/-- `AdaptiveStateMachine.apply_transition` (the log line is dropped; the
observable effect is `transition_to`). -/
def apply_transition (ctx : StateContext) (now : ℚ) (target : QualityState) :
    StateContext :=
  ctx.transition_to now target

/-- state_machine.py `RetryLogicWrapper` mutable state: the wrapped machine's
context plus the configuration read from settings and the two counter dicts. -/
structure RetryState where
  ctx : StateContext
  enabled : Bool
  retry_attempts : ℕ
  instant_recovery : Bool
  downgrade_counters : QualityState → ℕ
  upgrade_counters : QualityState → ℕ

/-- Branch of `evaluate_with_retry` for a present downgrade recommendation:
increment the target's counter, clear the upgrade counters, and either apply
the transition (threshold met, counters cleared) or return none. -/
def retryOnDowngrade (s : RetryState) (c2 : StateContext) (now : ℚ)
    (target : QualityState) (reason : Reason) :
    Option (QualityState × Reason) × RetryState :=
  if s.retry_attempts ≤ s.downgrade_counters target + 1 then
    (some (target, reason),
     { s with ctx := apply_transition c2 now target
              downgrade_counters := fun _ => 0
              upgrade_counters := fun _ => 0 })
  else
    (none,
     { s with ctx := c2
              downgrade_counters := fun q =>
                if q = target then s.downgrade_counters target + 1
                else s.downgrade_counters q
              upgrade_counters := fun _ => 0 })

/-- Branch of `evaluate_with_retry` for a present upgrade recommendation (the
downgrade counters are cleared on entry): instant recovery applies at once,
otherwise the target's counter is incremented and checked against the
threshold. -/
def retryOnUpgrade (s : RetryState) (c2 : StateContext) (now : ℚ)
    (target : QualityState) (reason : Reason) :
    Option (QualityState × Reason) × RetryState :=
  if s.instant_recovery then
    (some (target, reason),
     { s with ctx := apply_transition c2 now target
              downgrade_counters := fun _ => 0
              upgrade_counters := fun _ => 0 })
  else if s.retry_attempts ≤ s.upgrade_counters target + 1 then
    (some (target, reason),
     { s with ctx := apply_transition c2 now target
              downgrade_counters := fun _ => 0
              upgrade_counters := fun _ => 0 })
  else
    (none,
     { s with ctx := c2
              downgrade_counters := fun _ => 0
              upgrade_counters := fun q =>
                if q = target then s.upgrade_counters target + 1
                else s.upgrade_counters q })

/-- `RetryLogicWrapper.evaluate_with_retry`: both evaluators are invoked
unconditionally (the upgrade evaluator on the context already mutated by the
downgrade evaluator); with retry disabled the recommendation is applied
directly (downgrade first), with retry enabled the counter logic runs. -/
def evaluate_with_retry (s : RetryState) (now total_bandwidth_bps
    packet_loss_percent min_rtt_ms max_rtt_ms : ℚ) (active_subflows : ℤ) :
    Option (QualityState × Reason) × RetryState :=
  let d := evaluate_downgrade s.ctx now total_bandwidth_bps
    packet_loss_percent max_rtt_ms active_subflows
  let u := evaluate_upgrade d.2 now total_bandwidth_bps
    packet_loss_percent min_rtt_ms active_subflows
  if s.enabled then
    match d.1 with
    | some (target, reason) => retryOnDowngrade s u.2 now target reason
    | none =>
      match u.1 with
      | some (target, reason) => retryOnUpgrade s u.2 now target reason
      | none =>
        (none, { s with ctx := u.2
                        downgrade_counters := fun _ => 0
                        upgrade_counters := fun _ => 0 })
  else
    match d.1 with
    | some (target, reason) =>
        (some (target, reason), { s with ctx := apply_transition u.2 now target })
    | none =>
      match u.1 with
      | some (target, reason) =>
          (some (target, reason), { s with ctx := apply_transition u.2 now target })
      | none => (none, { s with ctx := u.2 })

/-- One metric sample handed to `evaluate_with_retry` at time `now` (the
control loop ticks once per second). -/
structure Tick where
  now : ℚ
  bw : ℚ
  loss : ℚ
  minRtt : ℚ
  maxRtt : ℚ
  subflows : ℤ

/-- Feed a list of ticks through `evaluate_with_retry`, collecting each tick's
returned recommendation and the final wrapper state. -/
def runTicks (s : RetryState) :
    List Tick → List (Option (QualityState × Reason)) × RetryState
  | [] => ([], s)
  | tk :: rest =>
    let r := evaluate_with_retry s tk.now tk.bw tk.loss tk.minRtt tk.maxRtt tk.subflows
    let rr := runTicks r.2 rest
    (r.1 :: rr.1, rr.2)

/-- ingest_monitor.py `@dataclass IngestStats` (the timestamp field, set to
the wall clock on construction, is omitted). -/
structure IngestStats where
  bitrate_kbps : ℚ
  connection_active : Bool
  rtt_ms : Option ℚ := none
  packet_loss_percent : Option ℚ := none
  deriving DecidableEq, Repr

/-- One `<stream>` element of the nginx-rtmp stats XML as read by
`_poll_nginx_rtmp`: `nameText` is the text of the `<name>` child (none when
the child is absent or empty of text), `bwIn` is the numeric value of the
`<bw_in>` child (none when the child is absent or its text empty; a present
non-numeric text would raise and is treated at the `_poll_stats` level like
the other counted failures, so it is not modelled separately). -/
structure StreamEntry where
  nameText : Option String
  bwIn : Option ℚ
  deriving DecidableEq, Repr

/-- Outcome of one HTTP poll of the nginx-rtmp stats endpoint: the request
failed, the body failed to parse as XML, or it parsed into a list of
`<stream>` elements. -/
inductive PollOutcome where
  | httpError
  | xmlParseError
  | ok (streams : List StreamEntry)
  deriving DecidableEq, Repr

/-- `IngestMonitor._poll_nginx_rtmp`: scan the streams in document order; the
first one whose name matches the configured key and whose `bw_in` is present
yields a sample with `bytes_per_sec * 8 / 1000` kbps and an active
connection; no match yields the inactive zero sample; HTTP and XML-parse
failures yield nothing. -/
def poll_nginx_rtmp (stream_key : String) (o : PollOutcome) :
    Option IngestStats :=
  match o with
  | PollOutcome.httpError => none
  | PollOutcome.xmlParseError => none
  | PollOutcome.ok streams =>
      match streams.findSome? (fun s =>
          if s.nameText = some stream_key then s.bwIn else none) with
      | some bytes_per_sec =>
          some { bitrate_kbps := bytes_per_sec * 8 / 1000, connection_active := true }
      | none =>
          some { bitrate_kbps := 0, connection_active := false }

/-- ingest_monitor.py `IngestMonitor` mutable counters and cache. -/
structure IngestMonitorState where
  last_stats : Option IngestStats
  poll_failures : ℕ
  total_polls : ℕ
  deriving DecidableEq, Repr

/-- `IngestMonitor.__init__`: no cached sample, both counters zero. -/
def initMonitor : IngestMonitorState :=
  { last_stats := none, poll_failures := 0, total_polls := 0 }

/-- `IngestMonitor._poll_stats` for the nginx flavour: bump `total_polls`,
then either cache the new sample and reset `poll_failures` or count a
failure leaving the cached sample alone. -/
def poll_stats (stream_key : String) (st : IngestMonitorState)
    (o : PollOutcome) : IngestMonitorState :=
  let st1 := { st with total_polls := st.total_polls + 1 }
  match poll_nginx_rtmp stream_key o with
  | some stats => { st1 with last_stats := some stats, poll_failures := 0 }
  | none => { st1 with poll_failures := st1.poll_failures + 1 }

/-- Python `round` to the nearest integer with ties going to the even
neighbour (the rounding mode of `round(x, ndigits)`), on exact rationals. -/
def pyRoundHalfEven (y : ℚ) : ℤ :=
  let f := y.floor
  if y - (f : ℚ) < 1/2 then f
  else if (1 : ℚ)/2 < y - (f : ℚ) then f + 1
  else if f % 2 = 0 then f else f + 1

/-- Python `round(x, 1)`: one-decimal round-half-to-even (the binary-float
representation error of the Python value is not modelled, per the ℚ
convention of this file). -/
def pyRound1 (x : ℚ) : ℚ :=
  ((pyRoundHalfEven (10 * x) : ℚ)) / 10

/-- `IngestMonitor.get_health`: the reported `success_rate_percent`, i.e.
`round(((total_polls - poll_failures) / total_polls) * 100, 1)` once a poll
has happened and 0 before. -/
def success_rate_percent (st : IngestMonitorState) : ℚ :=
  if 0 < st.total_polls then
    pyRound1 (((st.total_polls : ℚ) - (st.poll_failures : ℚ)) / (st.total_polls : ℚ) * 100)
  else 0

/-- metrics_aggregator.py `class MetricSource(Enum)`. -/
inductive MetricSource where
  | MPTCP
  | INGEST
  | BOTH
  | NEITHER
  deriving DecidableEq, Repr

/-- metrics_aggregator.py `class HealthStatus(Enum)`. -/
inductive HealthStatus where
  | HEALTHY
  | DEGRADED
  | CRITICAL
  | OFFLINE
  | UNKNOWN
  deriving DecidableEq, Repr

/-- config.py `bitrate_threshold_low_kbps` default. -/
def bitrate_threshold_low_kbps : ℚ := 500

/-- config.py `bitrate_threshold_offline_kbps` default. -/
def bitrate_threshold_offline_kbps : ℚ := 450

/-- config.py `bitrate_threshold_rtt_ms` default. -/
def bitrate_threshold_rtt_ms : ℚ := 1000

/-- metrics_aggregator.py `@dataclass AggregatedMetrics` (timestamp
omitted). -/
structure AggregatedMetrics where
  mptcp_bandwidth_mbps : Option ℚ := none
  mptcp_packet_loss : Option ℚ := none
  mptcp_rtt_ms : Option ℚ := none
  mptcp_active_subflows : Option ℤ := none
  ingest_bitrate_kbps : Option ℚ := none
  ingest_connection_active : Option Bool := none
  ingest_rtt_ms : Option ℚ := none
  health_status : HealthStatus := HealthStatus.UNKNOWN
  health_score : ℤ := 0
  divergence_detected : Bool := false
  primary_source : MetricSource := MetricSource.NEITHER
  deriving DecidableEq, Repr

/-- Python truthiness of an optional number: `None` and `0` are falsy. -/
def truthyQ (x : Option ℚ) : Bool :=
  match x with
  | none => false
  | some v => v ≠ 0

/-- Python `a or b` on two optional numbers: the right operand is returned
whenever the left one is falsy (`None` or zero). -/
def pyOrQ (a b : Option ℚ) : Option ℚ :=
  if truthyQ a then a else b

/-- Python `int(...)` on an exact rational: truncation toward zero. -/
def pyInt (q : ℚ) : ℤ :=
  if 0 ≤ q then q.floor else q.ceil

/-- `MetricsAggregator._determine_primary_source`. -/
def determine_primary_source (m : AggregatedMetrics) : MetricSource :=
  match m.mptcp_bandwidth_mbps, m.ingest_bitrate_kbps with
  | some _, some _ => MetricSource.BOTH
  | some _, none => MetricSource.MPTCP
  | none, some _ => MetricSource.INGEST
  | none, none => MetricSource.NEITHER

/-- `MetricsAggregator._has_degraded_metrics`: truthy packet loss above 2%,
truthy RTT (transport falling back to ingest) above the threshold, or exactly
one active subflow. -/
def has_degraded_metrics (m : AggregatedMetrics) : Bool :=
  (truthyQ m.mptcp_packet_loss &&
    match m.mptcp_packet_loss with
    | some l => decide (l > 2)
    | none => false) ||
  (match pyOrQ m.mptcp_rtt_ms m.ingest_rtt_ms with
   | some r => decide (r ≠ 0) && decide (r > bitrate_threshold_rtt_ms)
   | none => false) ||
  (m.mptcp_active_subflows = some 1)

/-- `MetricsAggregator._assess_health`: offline on an explicitly inactive
ingest connection, then the threshold ladder over the effective bitrate
(ingest preferred, transport scaled by the assumed 0.8 efficiency). -/
def assess_health (m : AggregatedMetrics) : HealthStatus :=
  if m.ingest_connection_active = some false then
    HealthStatus.OFFLINE
  else
    let bitrate_kbps : Option ℚ :=
      match m.ingest_bitrate_kbps with
      | some b => some b
      | none =>
        match m.mptcp_bandwidth_mbps with
        | some w => some (w * 1000 * (4/5))
        | none => none
    match bitrate_kbps with
    | none => HealthStatus.UNKNOWN
    | some b =>
      if b < bitrate_threshold_offline_kbps then HealthStatus.OFFLINE
      else if b < bitrate_threshold_low_kbps then HealthStatus.CRITICAL
      else if has_degraded_metrics m then HealthStatus.DEGRADED
      else HealthStatus.HEALTHY

/-- Effective bitrate used by `_calculate_health_score`: the ingest figure
when present, otherwise the transport bandwidth scaled by the assumed 0.8
efficiency — but only when the latter is truthy (`if bitrate_kbps is None and
metrics.mptcp_bandwidth_mbps:`). -/
def scoreEffectiveBitrate (m : AggregatedMetrics) : Option ℚ :=
  match m.ingest_bitrate_kbps with
  | some b => some b
  | none =>
    if truthyQ m.mptcp_bandwidth_mbps then
      m.mptcp_bandwidth_mbps.map (fun w => w * 1000 * (4/5))
    else none

/-- Bitrate component (40 points) of `_calculate_health_score`; the leading
`if bitrate_kbps:` truthiness test skips the band for `None` and for 0. -/
def scoreBitrate (bitrate_kbps : Option ℚ) : ℤ :=
  if truthyQ bitrate_kbps then
    match bitrate_kbps with
    | some b =>
      if b ≥ 2500 then 40
      else if b ≥ bitrate_threshold_low_kbps then
        pyInt (40 * (b - bitrate_threshold_low_kbps) / 2000)
      else pyInt (40 * (b / bitrate_threshold_low_kbps))
    | none => 0
  else 0

/-- Packet-loss component (30 points) of `_calculate_health_score`. -/
def scoreLoss (loss : Option ℚ) : ℤ :=
  match loss with
  | some l =>
    if l = 0 then 30
    else if l < 1 then 25
    else if l < 2 then 20
    else if l < 5 then 10
    else 0
  | none => 0

/-- RTT component (20 points) of `_calculate_health_score`, applied to the
`mptcp_rtt_ms or ingest_rtt_ms` selection. -/
def scoreRtt (rtt : Option ℚ) : ℤ :=
  match rtt with
  | some r =>
    if r < 50 then 20
    else if r < 100 then 15
    else if r < 200 then 10
    else if r < bitrate_threshold_rtt_ms then 5
    else 0
  | none => 0

/-- Redundancy component (10 points) of `_calculate_health_score`; the
leading `if metrics.mptcp_active_subflows:` truthiness test skips the band
for `None` and for 0. -/
def scoreRedundancy (subflows : Option ℤ) : ℤ :=
  match subflows with
  | some s =>
    if s ≠ 0 then
      if s ≥ 2 then 10
      else if s = 1 then 5
      else 0
    else 0
  | none => 0

/-- `MetricsAggregator._calculate_health_score`: the four banded components
and the final clamp. -/
def calculate_health_score (m : AggregatedMetrics) : ℤ :=
  min 100 (max 0
    (scoreBitrate (scoreEffectiveBitrate m) + scoreLoss m.mptcp_packet_loss +
      scoreRtt (pyOrQ m.mptcp_rtt_ms m.ingest_rtt_ms) +
      scoreRedundancy m.mptcp_active_subflows))

/-- `MetricsAggregator._detect_divergence`: only when both sources are
present; both converted-to-kbps figures must be positive and their ratio
below 0.7. -/
def detect_divergence (m : AggregatedMetrics) : Bool :=
  if m.primary_source ≠ MetricSource.BOTH then false
  else
    let mptcp_kbps : ℚ :=
      match m.mptcp_bandwidth_mbps with
      | some w => if w ≠ 0 then w * 1000 else 0
      | none => 0
    let ingest_kbps : ℚ :=
      match m.ingest_bitrate_kbps with
      | some b => if b ≠ 0 then b else 0
      | none => 0
    if 0 < mptcp_kbps ∧ 0 < ingest_kbps then
      decide (min mptcp_kbps ingest_kbps / max mptcp_kbps ingest_kbps < 7/10)
    else false

/-- `MetricsAggregator.aggregate`: build the record from the transport
arguments and the latest ingest sample, then fill the derived fields in the
source's order (primary source and health before divergence, which reads the
already-set `primary_source`). -/
def aggregate (mptcp_bandwidth_mbps mptcp_packet_loss mptcp_rtt_ms : Option ℚ)
    (mptcp_subflows : Option ℤ) (ingest_stats : Option IngestStats) :
    AggregatedMetrics :=
  let m0 : AggregatedMetrics :=
    { mptcp_bandwidth_mbps := mptcp_bandwidth_mbps
      mptcp_packet_loss := mptcp_packet_loss
      mptcp_rtt_ms := mptcp_rtt_ms
      mptcp_active_subflows := mptcp_subflows
      ingest_bitrate_kbps := ingest_stats.map (fun s => s.bitrate_kbps)
      ingest_connection_active := ingest_stats.map (fun s => s.connection_active)
      ingest_rtt_ms := ingest_stats.bind (fun s => s.rtt_ms) }
  let m1 :=
    { m0 with primary_source := determine_primary_source m0
              health_status := assess_health m0
              health_score := calculate_health_score m0 }
  { m1 with divergence_detected := detect_divergence m1 }

/-- Apply a sequence of `(time, target)` transitions through
`StateContext.transition_to`. -/
def applyTransitions (ctx : StateContext) : List (ℚ × QualityState) → StateContext
  | [] => ctx
  | p :: rest => applyTransitions (ctx.transition_to p.1 p.2) rest

/-- The invariant of spec §3: `previous_state` is populated exactly when the
current state is RECOVERY. -/
def previousIffRecovery (ctx : StateContext) : Prop :=
  ctx.previous_state.isSome = true ↔ ctx.current_state = QualityState.RECOVERY

/-- Bitrate banding as worded by the spec (the linear terms carry the
implementation's integer truncation, since the spec's score is an
integer). -/
def claimBitrateBand (b : ℚ) : ℤ :=
  if b ≥ 2500 then 40
  else if b ≥ 500 then pyInt (40 * (b - 500) / 2000)
  else pyInt (40 * (b / 500))

/-- Loss banding as worded by the spec. -/
def claimLossBand (l : ℚ) : ℤ :=
  if l = 0 then 30 else if l < 1 then 25 else if l < 2 then 20
  else if l < 5 then 10 else 0

/-- RTT banding as worded by the spec (threshold 1000 ms). -/
def claimRttBand (r : ℚ) : ℤ :=
  if r < 50 then 20 else if r < 100 then 15 else if r < 200 then 10
  else if r < 1000 then 5 else 0

/-- Redundancy banding as worded by the spec. -/
def claimRedundancyBand (s : ℤ) : ℤ :=
  if s ≥ 2 then 10 else if s = 1 then 5 else 0

/-- Health score as worded by the spec: sum of the four bands, clamped to
[0, 100]. -/
def claimHealthScore (b l r : ℚ) (s : ℤ) : ℤ :=
  min 100 (max 0 (claimBitrateBand b + claimLossBand l + claimRttBand r +
    claimRedundancyBand s))

/-- Wrapper state for the spec's retry-debounce scenario: retry enabled with
5 attempts, instant recovery off, machine in MEDIUM since time 0. -/
def c2InitState : RetryState :=
  { ctx := { current_state := QualityState.MEDIUM, previous_state := none, entered_at := 0 }
    enabled := true
    retry_attempts := 5
    instant_recovery := false
    downgrade_counters := fun _ => 0
    upgrade_counters := fun _ => 0 }

/-- Twenty one-second ticks, starting exactly at the dwell bound, carrying
metrics that satisfy the MEDIUM→LOW loss trigger (4 Mb/s, 4% loss, two
subflows). -/
def c2Ticks : List Tick :=
  (List.range 20).map (fun i =>
    { now := 45 + i, bw := 4000000, loss := 4, minRtt := 50, maxRtt := 60, subflows := 2 })

/-- Wrapper state for the counter-retention scenario: retry enabled with 5
attempts, instant recovery off, machine in HIGH since time 0. -/
def c9InitState : RetryState :=
  { ctx := { current_state := QualityState.HIGH, previous_state := none, entered_at := 0 }
    enabled := true
    retry_attempts := 5
    instant_recovery := false
    downgrade_counters := fun _ => 0
    upgrade_counters := fun _ => 0 }

/-- A tick with 10 Mb/s bandwidth and 3% loss (the HIGH loss trigger) and a
chosen subflow count. -/
def c9Tick (t : ℚ) (sf : ℤ) : Tick :=
  { now := t, bw := 10000000, loss := 3, minRtt := 50, maxRtt := 60, subflows := sf }

/-- Eight ticks: six building the HIGH→MEDIUM recommendation, one with zero
subflows (recommendation target switches to ERROR), then back. -/
def c9Ticks : List Tick :=
  [c9Tick 45 2, c9Tick 46 2, c9Tick 47 2, c9Tick 48 2, c9Tick 49 2,
   c9Tick 50 2, c9Tick 51 0, c9Tick 52 2]

/-- Wrapper state whose context already has the HIGH packet-loss condition
outstanding since time 0, so a tick at time 50 recommends the downgrade. -/
def c9WitnessState : RetryState :=
  { ctx := { current_state := QualityState.HIGH, previous_state := none, entered_at := 0
             condition_name := some "high_packet_loss", condition_met_at := some 0 }
    enabled := true
    retry_attempts := 5
    instant_recovery := false
    downgrade_counters := fun _ => 0
    upgrade_counters := fun _ => 0 }

/-- Helper: `evaluate_downgrade` only ever touches the condition fields of
the context; the state, previous state and entry time are unchanged. -/
theorem evaluate_downgrade_preserves (ctx : StateContext)
    (now bw loss maxRtt : ℚ) (sf : ℤ) :
    ((evaluate_downgrade ctx now bw loss maxRtt sf).2).current_state = ctx.current_state ∧
    ((evaluate_downgrade ctx now bw loss maxRtt sf).2).entered_at = ctx.entered_at := by
  unfold evaluate_downgrade StateContext.set_condition StateContext.clear_condition
  split <;> try (constructor <;> rfl)
  split <;> try (constructor <;> rfl)
  split <;> (try (constructor <;> rfl)) <;> split_ifs <;> constructor <;> rfl

/-- C1 counterexample: in HIGH with time in state 0 (below the 45 s dwell)
and zero active subflows, `evaluate_downgrade` returns none — not the
claimed immediate (ERROR, reason) — because the dwell pre-gate is checked
before the zero-subflow rule. -/
theorem c1_counterexample :
    (evaluate_downgrade
      { current_state := QualityState.HIGH, previous_state := none, entered_at := 0 }
      0 10000000 0 50 0).1 = none := by decide

/-- C1 amended: once the minimum dwell has elapsed, zero active subflows
makes `evaluate_downgrade` return (ERROR, both-uplinks-failed) immediately,
for every state, metric values and stored condition — bypassing every
observation window; below the dwell, the pre-gate returns none even with
zero subflows. -/
theorem c1_amended (ctx : StateContext) (now bw loss maxRtt : ℚ) :
    (MIN_STATE_DWELL_TIME ≤ ctx.time_in_state now →
      (evaluate_downgrade ctx now bw loss maxRtt 0).1
        = some (QualityState.ERROR, Reason.bothUplinksFailed)) ∧
    (ctx.time_in_state now < MIN_STATE_DWELL_TIME →
      (evaluate_downgrade ctx now bw loss maxRtt 0).1 = none) := by
  constructor
  · intro h
    unfold evaluate_downgrade
    rw [if_neg (not_lt.2 h)]
    simp
  · intro h
    unfold evaluate_downgrade
    rw [if_pos h]

/-- C1 witness: in HIGH at exactly 45 s in state, zero subflows yields the
immediate ERROR transition. -/
theorem c1_amended_witness :
    (evaluate_downgrade
      { current_state := QualityState.HIGH, previous_state := none, entered_at := 0 }
      45 10000000 0 50 0).1 = some (QualityState.ERROR, Reason.bothUplinksFailed) :=
  (c1_amended _ 45 10000000 0 50).1 (by decide)

/-- C2: with retry enabled (5 attempts, instant recovery off), starting in
MEDIUM at the dwell bound and feeding the MEDIUM→LOW loss trigger (4 Mb/s,
4% loss, 2 subflows) on twenty consecutive one-second ticks of
`evaluate_with_retry`, every tick returns none and the machine stays in
MEDIUM with no outstanding condition: the upgrade evaluator, invoked
unconditionally each tick, clears the downgrade condition before its 5 s
observation window can elapse, so the inner machine never recommends the
downgrade and the claimed fifth-tick transition never happens. -/
theorem c2_downgrade_never_fires :
    (runTicks c2InitState c2Ticks).1 = List.replicate 20 none ∧
    (runTicks c2InitState c2Ticks).2.ctx.current_state = QualityState.MEDIUM ∧
    (runTicks c2InitState c2Ticks).2.ctx.condition_name = none := by decide

/-- C3 counterexample: in HIGH (at the dwell bound, 3% loss) the condition
set by `evaluate_downgrade` survives the subsequent `evaluate_upgrade`
call, since the upgrade evaluator has no HIGH branch — refuting the claim
for HIGH. -/
theorem c3_counterexample :
    ((evaluate_upgrade
        (evaluate_downgrade
          { current_state := QualityState.HIGH, previous_state := none, entered_at := 0 }
          45 10000000 3 60 2).2
        45 10000000 3 50 2).2).condition_name = some "high_packet_loss" := by decide

/-- C3 amended: for MEDIUM and LOW (not HIGH), past the dwell, when a
downgrade trigger holds and the state's upgrade conjunction does not,
running `evaluate_downgrade` then `evaluate_upgrade` (the order
`evaluate_with_retry` always uses) leaves no outstanding condition: the
upgrade else-branch clears what the downgrade evaluator set. -/
theorem c3_amended (ctx : StateContext) (now bw loss minRtt maxRtt : ℚ) (sf : ℤ)
    (hdwell : MIN_STATE_DWELL_TIME ≤ ctx.time_in_state now) :
    (ctx.current_state = QualityState.MEDIUM →
      (3 < loss ∨ bw < 3000000) →
      ¬(bw > 7000000 ∧ loss < 1/2 ∧ minRtt < 100) →
      ((evaluate_upgrade (evaluate_downgrade ctx now bw loss maxRtt sf).2
          now bw loss minRtt sf).2).condition_name = none) ∧
    (ctx.current_state = QualityState.LOW →
      (5 < loss ∨ bw < 1500000) →
      ¬(bw > 4500000 ∧ loss < 1/2 ∧ minRtt < 80) →
      ((evaluate_upgrade (evaluate_downgrade ctx now bw loss maxRtt sf).2
          now bw loss minRtt sf).2).condition_name = none) := by
  have hpres := evaluate_downgrade_preserves ctx now bw loss maxRtt sf
  have hdwell2 : ¬ ((evaluate_downgrade ctx now bw loss maxRtt sf).2).time_in_state now
      < MIN_STATE_DWELL_TIME := by
    rw [StateContext.time_in_state, hpres.2]
    exact not_lt.2 hdwell
  constructor
  · intro hcs _ hconj
    unfold evaluate_upgrade
    rw [hpres.1, hcs]
    simp only [reduceCtorEq, if_false, if_neg hdwell2]
    rw [if_neg hconj]
    rfl
  · intro hcs _ hconj
    unfold evaluate_upgrade
    rw [hpres.1, hcs]
    simp only [reduceCtorEq, if_false, if_neg hdwell2]
    rw [if_neg hconj]
    rfl

/-- C3 witness: MEDIUM at the dwell bound with the loss trigger holding
ends the tick with no condition. -/
theorem c3_amended_witness :
    ((evaluate_upgrade
        (evaluate_downgrade
          { current_state := QualityState.MEDIUM, previous_state := none, entered_at := 0 }
          45 4000000 4 60 2).2
        45 4000000 4 50 2).2).condition_name = none :=
  (c3_amended _ 45 4000000 4 50 60 2 (by decide)).1 rfl (Or.inl (by norm_num))
    (by decide)

/-- Helper: one `transition_to` step preserves the previous-state/RECOVERY
invariant. -/
theorem transition_to_preserves_previousIffRecovery (ctx : StateContext)
    (now : ℚ) (s : QualityState) (h : previousIffRecovery ctx) :
    previousIffRecovery (ctx.transition_to now s) := by
  unfold previousIffRecovery StateContext.transition_to StateContext.clear_condition at *
  by_cases hs : s = QualityState.RECOVERY
  · simp [hs]
  · by_cases hc : ctx.current_state = QualityState.RECOVERY
    · simp [hs, hc]
    · simp only [if_neg hs, if_neg hc]
      exact iff_of_false (fun hsome => hc (h.mp hsome)) hs

/-- Helper: the invariant is preserved along any transition sequence. -/
theorem applyTransitions_preserves (l : List (ℚ × QualityState)) :
    ∀ ctx : StateContext, previousIffRecovery ctx →
      previousIffRecovery (applyTransitions ctx l) := by
  induction l with
  | nil => intro ctx h; exact h
  | cons p rest ih =>
      intro ctx h
      exact ih _ (transition_to_preserves_previousIffRecovery ctx p.1 p.2 h)

/-- C4: from the initial context (MEDIUM, no previous state) every sequence
of `transition_to` applications keeps `previous_state` populated exactly
when the current state is RECOVERY. -/
theorem c4_previous_state_invariant (t0 : ℚ) (l : List (ℚ × QualityState)) :
    ((applyTransitions (initContext t0) l).previous_state).isSome = true ↔
      (applyTransitions (initContext t0) l).current_state = QualityState.RECOVERY :=
  applyTransitions_preserves l (initContext t0) (by simp [previousIffRecovery, initContext])

/-- C5: `evaluate_upgrade` returns none in ERROR for all inputs; in RECOVERY
it returns none before the 60 s recovery dwell, and afterwards upgrades to
LOW / MEDIUM / HIGH when `previous_state` is VERY_LOW / LOW / MEDIUM
respectively, returning none when the previous state is absent or any other
value. -/
theorem c5_upgrade_error_and_recovery (ctx : StateContext)
    (now bw loss minRtt : ℚ) (sf : ℤ) :
    (ctx.current_state = QualityState.ERROR →
      (evaluate_upgrade ctx now bw loss minRtt sf).1 = none) ∧
    (ctx.current_state = QualityState.RECOVERY →
      (ctx.time_in_state now < RECOVERY_DWELL_TIME →
        (evaluate_upgrade ctx now bw loss minRtt sf).1 = none) ∧
      (RECOVERY_DWELL_TIME ≤ ctx.time_in_state now →
        (evaluate_upgrade ctx now bw loss minRtt sf).1 =
          match ctx.previous_state with
          | some QualityState.VERY_LOW =>
              some (QualityState.LOW, Reason.recoveryComplete QualityState.VERY_LOW)
          | some QualityState.LOW =>
              some (QualityState.MEDIUM, Reason.recoveryComplete QualityState.LOW)
          | some QualityState.MEDIUM =>
              some (QualityState.HIGH, Reason.recoveryComplete QualityState.MEDIUM)
          | _ => none)) := by
  constructor
  · intro h
    unfold evaluate_upgrade
    rw [if_pos h]
  · intro h
    constructor
    · intro hlt
      unfold evaluate_upgrade
      rw [if_neg (by rw [h]; exact fun hh => QualityState.noConfusion hh)]
      by_cases hd : ctx.time_in_state now < MIN_STATE_DWELL_TIME
      · rw [if_pos hd]
      · rw [if_neg hd, if_pos h, if_neg (not_le.2 hlt)]
    · intro hge
      have hd : ¬ ctx.time_in_state now < MIN_STATE_DWELL_TIME := by
        rw [not_lt]
        calc MIN_STATE_DWELL_TIME ≤ RECOVERY_DWELL_TIME := by
              norm_num [MIN_STATE_DWELL_TIME, RECOVERY_DWELL_TIME]
        _ ≤ ctx.time_in_state now := hge
      unfold evaluate_upgrade
      rw [if_neg (by rw [h]; exact fun hh => QualityState.noConfusion hh)]
      rw [if_neg hd, if_pos h, if_pos (le_trans (by norm_num [RECOVERY_DWELL_TIME]) hge)]
      cases hp : ctx.previous_state with
      | none => rfl
      | some q => cases q <;> rfl

/-- C5 witness: ERROR returns none; RECOVERY with previous state LOW and 70 s
in state upgrades to MEDIUM. -/
theorem c5_upgrade_error_and_recovery_witness :
    (evaluate_upgrade
      { current_state := QualityState.ERROR, previous_state := none, entered_at := 0 }
      0 0 0 0 2).1 = none ∧
    (evaluate_upgrade
      { current_state := QualityState.RECOVERY, previous_state := some QualityState.LOW,
        entered_at := 0 }
      70 0 0 0 2).1 =
        some (QualityState.MEDIUM, Reason.recoveryComplete QualityState.LOW) := by
  constructor
  · exact (c5_upgrade_error_and_recovery _ 0 0 0 0 2).1 rfl
  · have h := ((c5_upgrade_error_and_recovery
      { current_state := QualityState.RECOVERY, previous_state := some QualityState.LOW,
        entered_at := 0 }
      70 0 0 0 2).2 rfl).2 (by decide)
    simpa using h

/-- Helper: the implementation's bitrate component on a present value equals
the spec's band (a zero bitrate skips the band but the band itself is 0
there). -/
theorem scoreBitrate_eq_band (b : ℚ) : scoreBitrate (some b) = claimBitrateBand b := by
  by_cases hb : b = 0
  · subst hb; decide
  · simp [scoreBitrate, claimBitrateBand, truthyQ, hb, bitrate_threshold_low_kbps]

/-- Helper: the implementation's redundancy component on a present value
equals the spec's band. -/
theorem scoreRedundancy_eq_band (s : ℤ) :
    scoreRedundancy (some s) = claimRedundancyBand s := by
  by_cases hs : s = 0
  · subst hs; decide
  · simp [scoreRedundancy, claimRedundancyBand, hs]

/-- C6 counterexample: with ingest bitrate 3000 kbps, loss 0.5%, transport
RTT exactly 0 ms and 2 subflows, the implementation scores 75 (the zero RTT
is falsy, so the `or`-fallback drops the RTT band) while the spec's banded
sum gives 95 — the claimed equality fails at RTT 0. -/
theorem c6_counterexample :
    calculate_health_score
      (aggregate none (some (1/2)) (some 0) (some 2)
        (some { bitrate_kbps := 3000, connection_active := true })) = 75 ∧
    claimHealthScore 3000 (1/2) 0 2 = 95 := by decide

/-- C6 amended: for present inputs with a non-zero RTT the health score
equals the spec's clamped banded sum; the score lies in [0, 100] for every
input; and the concrete example (3000 kbps, 0.5% loss, 60 ms, 2 subflows)
scores 90. -/
theorem c6_amended (b l r : ℚ) (s : ℤ) (conn : Option Bool) (irtt : Option ℚ)
    (hr : r ≠ 0) :
    calculate_health_score
      { mptcp_bandwidth_mbps := none
        mptcp_packet_loss := some l
        mptcp_rtt_ms := some r
        mptcp_active_subflows := some s
        ingest_bitrate_kbps := some b
        ingest_connection_active := conn
        ingest_rtt_ms := irtt } = claimHealthScore b l r s ∧
    (∀ m : AggregatedMetrics,
      0 ≤ calculate_health_score m ∧ calculate_health_score m ≤ 100) ∧
    calculate_health_score
      (aggregate none (some (1/2)) (some 60) (some 2)
        (some { bitrate_kbps := 3000, connection_active := true })) = 90 := by
  refine ⟨?_, ?_, by decide⟩
  · have hsel : pyOrQ (some r) irtt = some r := by
      simp [pyOrQ, truthyQ, hr]
    unfold calculate_health_score claimHealthScore
    rw [show scoreEffectiveBitrate
        { mptcp_bandwidth_mbps := none
          mptcp_packet_loss := some l
          mptcp_rtt_ms := some r
          mptcp_active_subflows := some s
          ingest_bitrate_kbps := some b
          ingest_connection_active := conn
          ingest_rtt_ms := irtt } = some b from rfl]
    rw [hsel, scoreBitrate_eq_band, scoreRedundancy_eq_band]
    rfl
  · intro m
    unfold calculate_health_score
    exact ⟨le_min (by norm_num) (le_max_left _ _), min_le_left _ _⟩

/-- C6 witness: the banded-sum equality evaluated at the concrete inputs of
the spec's scenario. -/
theorem c6_amended_witness :
    calculate_health_score
      { mptcp_bandwidth_mbps := none
        mptcp_packet_loss := some (1/2)
        mptcp_rtt_ms := some 60
        mptcp_active_subflows := some 2
        ingest_bitrate_kbps := some 3000
        ingest_connection_active := some true
        ingest_rtt_ms := none } = claimHealthScore 3000 (1/2) 60 2 :=
  (c6_amended 3000 (1/2) 60 2 (some true) none (by norm_num)).1

/-- Helper: when no stream carries the configured key the document-order
scan finds nothing. -/
theorem findSome?_eq_none_of_no_match (key : String) (streams : List StreamEntry)
    (h : ∀ s ∈ streams, s.nameText ≠ some key) :
    streams.findSome? (fun s => if s.nameText = some key then s.bwIn else none) = none := by
  induction streams with
  | nil => rfl
  | cons a rest ih =>
      rw [List.findSome?_cons]
      rw [if_neg (h a (List.mem_cons_self a rest))]
      exact ih (fun s hs => h s (List.mem_cons_of_mem a hs))

/-- C7: a poll whose XML carries a stream matching the configured key with
`bw_in` B caches a sample with bitrate B·8/1000 kbps and an active
connection (and resets the failure streak); a poll with no matching stream
caches the inactive zero sample; HTTP and XML-parse failures count a
failure and leave the cached sample unchanged. -/
theorem c7_nginx_poll (key : String) (streams : List StreamEntry) (B : ℚ)
    (st : IngestMonitorState) :
    (streams.findSome? (fun s => if s.nameText = some key then s.bwIn else none)
        = some B →
      (poll_stats key st (PollOutcome.ok streams)).last_stats =
        some { bitrate_kbps := B * 8 / 1000, connection_active := true } ∧
      (poll_stats key st (PollOutcome.ok streams)).poll_failures = 0) ∧
    ((∀ s ∈ streams, s.nameText ≠ some key) →
      (poll_stats key st (PollOutcome.ok streams)).last_stats =
        some { bitrate_kbps := 0, connection_active := false }) ∧
    ((poll_stats key st PollOutcome.httpError).last_stats = st.last_stats ∧
      (poll_stats key st PollOutcome.httpError).poll_failures = st.poll_failures + 1) ∧
    ((poll_stats key st PollOutcome.xmlParseError).last_stats = st.last_stats ∧
      (poll_stats key st PollOutcome.xmlParseError).poll_failures = st.poll_failures + 1) := by
  refine ⟨?_, ?_, ⟨rfl, rfl⟩, ⟨rfl, rfl⟩⟩
  · intro h
    constructor <;> simp [poll_stats, poll_nginx_rtmp, h]
  · intro h
    simp only [poll_stats, poll_nginx_rtmp,
      findSome?_eq_none_of_no_match key streams h]

/-- C7 witness: the canonical XML with `bw_in` 625000 parses to exactly
5000 kbps with an active connection. -/
theorem c7_nginx_poll_witness :
    (poll_stats "live/stream" initMonitor
      (PollOutcome.ok [{ nameText := some "live/stream", bwIn := some 625000 }])).last_stats =
      some { bitrate_kbps := 5000, connection_active := true } := by
  have h := (c7_nginx_poll "live/stream"
    [{ nameText := some "live/stream", bwIn := some 625000 }] 625000 initMonitor).1
    (by decide)
  rw [h.1]
  norm_num

/-- C8 counterexample: a failed poll followed by a successful one makes
`poll_failures` drop from 1 back to 0 — the failure counter is reset on
every success, so it is not monotonic as claimed. -/
theorem c8_counterexample :
    (poll_stats "live/stream"
        (poll_stats "live/stream" initMonitor PollOutcome.httpError)
        (PollOutcome.ok [{ nameText := some "live/stream", bwIn := some 625000 }])).poll_failures
      < (poll_stats "live/stream" initMonitor PollOutcome.httpError).poll_failures := by
  decide

/-- C8 amended: `total_polls` grows by exactly one per poll (so it is
monotonic); `poll_failures` counts the current consecutive-failure streak —
reset to 0 by every successful poll, incremented with the cached sample
untouched by every failed one; the reported `success_rate_percent` is
(total − failures)/total·100 rounded to one decimal (half-to-even) whenever
at least one poll happened — so with 3 polls and 1 failure it reports 66.7,
which differs from the claimed exact 200/3. -/
theorem c8_amended (key : String) (st : IngestMonitorState) (o : PollOutcome) :
    (poll_stats key st o).total_polls = st.total_polls + 1 ∧
    ((poll_nginx_rtmp key o).isSome = true → (poll_stats key st o).poll_failures = 0) ∧
    (poll_nginx_rtmp key o = none →
      (poll_stats key st o).poll_failures = st.poll_failures + 1 ∧
      (poll_stats key st o).last_stats = st.last_stats) ∧
    (0 < st.total_polls →
      success_rate_percent st =
        pyRound1
          (((st.total_polls : ℚ) - (st.poll_failures : ℚ)) / (st.total_polls : ℚ) * 100)) ∧
    success_rate_percent
      { last_stats := none, poll_failures := 1, total_polls := 3 } = 667/10 ∧
    ((200 : ℚ)/3 ≠ 667/10) := by
  refine ⟨?_, ?_, ?_, ?_, by decide, by decide⟩
  · unfold poll_stats
    cases h : poll_nginx_rtmp key o <;> rfl
  · intro h
    unfold poll_stats
    cases hx : poll_nginx_rtmp key o with
    | none => rw [hx] at h; exact absurd h (by simp)
    | some v => rfl
  · intro h
    unfold poll_stats
    rw [h]
    exact ⟨rfl, rfl⟩
  · intro h
    unfold success_rate_percent
    rw [if_pos h]

/-- C8 witness: one failed poll from a fresh monitor gives one poll, one
failure and a reported 0% success rate; with 3 polls and 1 failure the
rounded formula reports 66.7. -/
theorem c8_amended_witness :
    (poll_stats "k" initMonitor PollOutcome.httpError).total_polls = 1 ∧
    (poll_stats "k" initMonitor PollOutcome.httpError).poll_failures = 1 ∧
    success_rate_percent (poll_stats "k" initMonitor PollOutcome.httpError) = 0 ∧
    success_rate_percent
      { last_stats := none, poll_failures := 1, total_polls := 3 } = 667/10 := by
  have h := c8_amended "k" initMonitor PollOutcome.httpError
  have h2 := c8_amended "k" (poll_stats "k" initMonitor PollOutcome.httpError)
    PollOutcome.httpError
  have h3 := c8_amended "k"
    { last_stats := none, poll_failures := 1, total_polls := 3 } PollOutcome.httpError
  refine ⟨h.1, (h.2.2.1 rfl).1, ?_, ?_⟩
  · rw [h2.2.2.2.1 (by decide)]
    decide
  · rw [h3.2.2.2.1 (by decide)]
    decide

/-- C9 counterexample: from HIGH the wrapper counts one MEDIUM downgrade
recommendation, then one tick recommends ERROR (zero subflows), and when
the recommendation returns to MEDIUM its counter resumes at 2 — not 1 as
claimed: the dict entry for the previous target is retained, not reset. -/
theorem c9_counterexample :
    (evaluate_downgrade (runTicks c9InitState (c9Ticks.take 6)).2.ctx
        51 10000000 3 60 0).1
      = some (QualityState.ERROR, Reason.bothUplinksFailed) ∧
    (evaluate_downgrade (runTicks c9InitState (c9Ticks.take 7)).2.ctx
        52 10000000 3 60 2).1
      = some (QualityState.MEDIUM, Reason.highPacketLoss 3) ∧
    (runTicks c9InitState (c9Ticks.take 6)).2.downgrade_counters QualityState.MEDIUM = 1 ∧
    (runTicks c9InitState c9Ticks).2.downgrade_counters QualityState.MEDIUM = 2 ∧
    (runTicks c9InitState c9Ticks).2.downgrade_counters QualityState.ERROR = 1 := by
  refine ⟨?_, ?_, ?_, ?_, ?_⟩ <;> decide

/-- C9 amended: with retry enabled, on any tick whose inner recommendation
targets t (downgrade, or upgrade with instant recovery off), t's counter
becomes its previous value plus one and every other counter of that
direction keeps its previous value (so a switched-to target resumes from
its retained count, restarting at 1 only if it was never counted since the
last clear); once the incremented counter reaches `retry_attempts`, the
transition is applied and all counters of that direction are cleared. -/
theorem c9_amended (s : RetryState) (now bw loss minRtt maxRtt : ℚ) (sf : ℤ)
    (hen : s.enabled = true) :
    (∀ t r, (evaluate_downgrade s.ctx now bw loss maxRtt sf).1 = some (t, r) →
      (s.retry_attempts ≤ s.downgrade_counters t + 1 →
        ∀ q, (evaluate_with_retry s now bw loss minRtt maxRtt sf).2.downgrade_counters q
          = 0) ∧
      (s.downgrade_counters t + 1 < s.retry_attempts →
        (evaluate_with_retry s now bw loss minRtt maxRtt sf).1 = none ∧
        (evaluate_with_retry s now bw loss minRtt maxRtt sf).2.downgrade_counters t
          = s.downgrade_counters t + 1 ∧
        ∀ q, q ≠ t →
          (evaluate_with_retry s now bw loss minRtt maxRtt sf).2.downgrade_counters q
            = s.downgrade_counters q)) ∧
    (∀ t r, (evaluate_downgrade s.ctx now bw loss maxRtt sf).1 = none →
      (evaluate_upgrade (evaluate_downgrade s.ctx now bw loss maxRtt sf).2
          now bw loss minRtt sf).1 = some (t, r) →
      s.instant_recovery = false →
      (s.retry_attempts ≤ s.upgrade_counters t + 1 →
        ∀ q, (evaluate_with_retry s now bw loss minRtt maxRtt sf).2.upgrade_counters q
          = 0) ∧
      (s.upgrade_counters t + 1 < s.retry_attempts →
        (evaluate_with_retry s now bw loss minRtt maxRtt sf).1 = none ∧
        (evaluate_with_retry s now bw loss minRtt maxRtt sf).2.upgrade_counters t
          = s.upgrade_counters t + 1 ∧
        ∀ q, q ≠ t →
          (evaluate_with_retry s now bw loss minRtt maxRtt sf).2.upgrade_counters q
            = s.upgrade_counters q)) := by
  constructor
  · intro t r hrec
    have hbody : evaluate_with_retry s now bw loss minRtt maxRtt sf =
        retryOnDowngrade s
          (evaluate_upgrade (evaluate_downgrade s.ctx now bw loss maxRtt sf).2
            now bw loss minRtt sf).2 now t r := by
      simp only [evaluate_with_retry, hen, hrec, if_true]
    rw [hbody]
    unfold retryOnDowngrade
    constructor
    · intro hth q
      rw [if_pos hth]
    · intro hth
      rw [if_neg (not_le.2 hth)]
      refine ⟨rfl, ?_, ?_⟩
      · simp
      · intro q hq
        simp [hq]
  · intro t r hdown hup hinst
    have hbody : evaluate_with_retry s now bw loss minRtt maxRtt sf =
        retryOnUpgrade s
          (evaluate_upgrade (evaluate_downgrade s.ctx now bw loss maxRtt sf).2
            now bw loss minRtt sf).2 now t r := by
      simp only [evaluate_with_retry, hen, hdown, hup, if_true]
    rw [hbody]
    unfold retryOnUpgrade
    rw [hinst]
    constructor
    · intro hth q
      rw [if_neg (by simp), if_pos hth]
    · intro hth
      rw [if_neg (by simp), if_neg (not_le.2 hth)]
      refine ⟨rfl, ?_, ?_⟩
      · simp
      · intro q hq
        simp [hq]

/-- C9 witness: a first MEDIUM downgrade recommendation takes that counter
to 1, leaves the ERROR counter at 0, and returns none. -/
theorem c9_amended_witness :
    (evaluate_with_retry c9WitnessState 50 10000000 3 50 60 2).1 = none ∧
    (evaluate_with_retry c9WitnessState 50 10000000 3 50 60 2).2.downgrade_counters
      QualityState.MEDIUM = 1 ∧
    (evaluate_with_retry c9WitnessState 50 10000000 3 50 60 2).2.downgrade_counters
      QualityState.ERROR = 0 := by
  have h := ((c9_amended c9WitnessState 50 10000000 3 50 60 2 rfl).1
    QualityState.MEDIUM (Reason.highPacketLoss 3) (by decide)).2 (by decide)
  exact ⟨h.1, h.2.1, h.2.2 QualityState.ERROR (by decide)⟩

/-- C10 counterexample: aggregating 5 Mb/s transport bandwidth with a
1000 kbps active ingest sample does detect divergence with both sources
primary, but the health status is HEALTHY — not CRITICAL or DEGRADED as
claimed (1000 kbps is above the 500 kbps CRITICAL threshold and no
degraded-metric flag is set). -/
theorem c10_counterexample :
    (aggregate (some 5) none none none
      (some { bitrate_kbps := 1000, connection_active := true })).divergence_detected
        = true ∧
    (aggregate (some 5) none none none
      (some { bitrate_kbps := 1000, connection_active := true })).primary_source
        = MetricSource.BOTH ∧
    (aggregate (some 5) none none none
      (some { bitrate_kbps := 1000, connection_active := true })).health_status
        = HealthStatus.HEALTHY ∧
    HealthStatus.HEALTHY ≠ HealthStatus.CRITICAL ∧
    HealthStatus.HEALTHY ≠ HealthStatus.DEGRADED := by
  refine ⟨?_, ?_, ?_, ?_, ?_⟩ <;> decide

/-- C10 amended: for nonnegative present transport bandwidth and ingest
bitrate, divergence is detected exactly when the primary source is BOTH,
both kbps figures are non-zero, and their min/max ratio is below 0.7; the
concrete 5 Mb/s / 1000 kbps scenario yields divergence with both sources
primary and a HEALTHY status. -/
theorem c10_amended (bw ib : ℚ) (hbw : 0 ≤ bw) (hib : 0 ≤ ib)
    (ml mr : Option ℚ) (ms : Option ℤ) (conn : Bool) (irtt : Option ℚ) :
    ((aggregate (some bw) ml mr ms
        (some { bitrate_kbps := ib, connection_active := conn, rtt_ms := irtt
                })).divergence_detected = true ↔
      ((aggregate (some bw) ml mr ms
          (some { bitrate_kbps := ib, connection_active := conn, rtt_ms := irtt
                  })).primary_source = MetricSource.BOTH ∧
        bw * 1000 ≠ 0 ∧ ib ≠ 0 ∧
        min (bw * 1000) ib / max (bw * 1000) ib < 7/10)) ∧
    (aggregate (some 5) none none none
      (some { bitrate_kbps := 1000, connection_active := true })).divergence_detected
        = true ∧
    (aggregate (some 5) none none none
      (some { bitrate_kbps := 1000, connection_active := true })).primary_source
        = MetricSource.BOTH ∧
    (aggregate (some 5) none none none
      (some { bitrate_kbps := 1000, connection_active := true })).health_status
        = HealthStatus.HEALTHY := by
  refine ⟨?_, by decide, by decide, by decide⟩
  have hps : (aggregate (some bw) ml mr ms
      (some { bitrate_kbps := ib, connection_active := conn, rtt_ms := irtt
              })).primary_source = MetricSource.BOTH := by
    simp [aggregate, determine_primary_source]
  rw [hps]
  simp only [aggregate, detect_divergence, determine_primary_source, Option.map]
  by_cases hb0 : bw = 0
  · subst hb0
    simp
  · by_cases hi0 : ib = 0
    · subst hi0
      simp [hb0]
    · have hmk : (0:ℚ) < bw * 1000 := by
        rcases lt_or_eq_of_le hbw with h | h
        · positivity
        · exact absurd h.symm hb0
      have hik : (0:ℚ) < ib := lt_of_le_of_ne hib (Ne.symm hi0)
      simp [hb0, hi0, hmk, hik]

/-- C10 witness: the divergence characterisation instantiated at 5 Mb/s
transport and 1000 kbps ingest. -/
theorem c10_amended_witness :
    (aggregate (some 5) (some 0) none none
      (some { bitrate_kbps := 1000, connection_active := true })).divergence_detected
        = true :=
  ((c10_amended 5 1000 (by norm_num) (by norm_num) (some 0) none none true none).1).mpr
    ⟨by decide, by norm_num, by norm_num, by norm_num⟩

end VVLIVE
